import Mathlib

/-!
Shallow embedding of the bearer-token verification subsystem of
`app/services/clerk_auth.py` (class `ClerkAuthService`), and proofs about it.

Modelling conventions:
- Python dict `.get` reads become `Option` fields; a raised
  `fastapi.HTTPException` becomes an `Except.error` carrying its status code
  and detail string.
- The network is abstracted as a `FetchOutcome` argument: what one HTTPS GET
  of the JWKS URL yields during the call (`failure` covers a transport
  error, a non-2xx status, and a body that is not JSON — all of which raise
  inside the `try` of `get_jwks`).
- The mutable service state (`_jwks_cache`, `_public_keys_cache`) is passed
  explicitly; `fetchCount` instruments how many network fetches have been
  performed, which the source observes only as side effects.
- Machine integers do not arise: Python ints are unbounded, so `Nat` is the
  faithful carrier for byte values and RSA components.
-/

namespace ZapAuth

/-- A `fastapi.HTTPException`: the status code and detail the handler sends. -/
structure HTTPError where
  status : Nat
  detail : String
deriving DecidableEq

/-- Raised by `get_jwks` when the fetch fails (transport error, bad status,
or malformed JSON). -/
def serviceUnavailableError : HTTPError :=
  ⟨503, "Authentication service unavailable"⟩

/-- Raised inside `get_public_key` when the JWK→PEM conversion fails. -/
def keyConversionError : HTTPError :=
  ⟨500, "Failed to process authentication key"⟩

/-- Raised by `get_public_key` when no key of the set matches the kid. -/
def keyNotFoundError : HTTPError :=
  ⟨401, "Invalid token: key not found"⟩

/-- Raised inside `verify_token`'s try block when the header has no kid. -/
def noKeyIdError : HTTPError :=
  ⟨401, "Invalid token: no key ID"⟩

/-- The response of `verify_token`'s `except jwt.InvalidTokenError` clause. -/
def invalidTokenResponse : HTTPError :=
  ⟨401, "Invalid authentication token"⟩

/-- The response of `verify_token`'s blanket `except Exception` clause. -/
def verificationFailedResponse : HTTPError :=
  ⟨500, "Authentication verification failed"⟩

/-- Raised by `extract_token_from_header` on a falsy header value. -/
def headerMissingError : HTTPError :=
  ⟨401, "Authorization header missing"⟩

/-- Raised by `extract_token_from_header` on a header that does not split
into `bearer` plus one credential. -/
def malformedHeaderError : HTTPError :=
  ⟨401, "Invalid authorization header format"⟩

/-- One entry of the JWKS `keys` array, as the parsed JSON dict the code
reads: `key.get("kid")` and the subscriptions `key["n"]`, `key["e"]` are
`Option` fields (a missing `n`/`e` raises `KeyError`, which the conversion's
`except` catches). -/
structure Jwk where
  kid : Option String
  n : Option String
  e : Option String
deriving DecidableEq

/-- The parsed JWKS body, assumed a JSON object as the code does. `keys` is
the `"keys"` entry (`jwks.get("keys", [])` defaults it to `[]`); `extra`
records whether the object carries any other entry, which matters only for
Python truthiness of the dict in `if self._jwks_cache:`. -/
structure JwksDoc where
  keys : Option (List Jwk)
  extra : Bool
deriving DecidableEq

/-- Python truthiness of the parsed JWKS dict: an empty dict is falsy. -/
def JwksDoc.truthy (d : JwksDoc) : Bool :=
  d.keys.isSome || d.extra

/-- Truthiness of `self._jwks_cache`: `None` and the empty dict are falsy. -/
def cacheTruthy : Option JwksDoc → Bool
  | none => false
  | some d => d.truthy

/-- Models `public_key.public_bytes(Encoding.PEM, SubjectPublicKeyInfo)`:
the PEM container is a deterministic, injective encoding of the RSA public
numbers, so it is carried as the pair itself. -/
structure PEM where
  e : Nat
  n : Nat
deriving DecidableEq

/-- The mutable state of the `ClerkAuthService` instance, plus a fetch
counter instrumenting network use. `public_keys_cache` is the dict
`_public_keys_cache` as an association list (insertion at the front; the
code only ever inserts a kid that is absent, so lookup agrees with dict
lookup). -/
structure SvcState where
  jwks_cache : Option JwksDoc
  public_keys_cache : List (String × PEM)
  fetchCount : Nat
deriving DecidableEq

/-- The state of a freshly constructed service. -/
def SvcState.init : SvcState :=
  ⟨none, [], 0⟩

/-- What one HTTPS GET of the JWKS URL yields: `failure` for a transport
error, a non-2xx status or a malformed JSON body; `success body` for a 2xx
response whose body parses as the JSON object `body`. -/
inductive FetchOutcome
  | failure
  | success (body : JwksDoc)
deriving DecidableEq

/-- The fetch branch of `get_jwks`: performs the GET; on success stores the
body in `_jwks_cache` and returns it, on failure raises the 503. -/
def get_jwks_fetch (env : FetchOutcome) (st : SvcState) :
    Except HTTPError JwksDoc × SvcState :=
  match env with
  | .failure =>
      (.error serviceUnavailableError, { st with fetchCount := st.fetchCount + 1 })
  | .success body =>
      (.ok body,
        { st with jwks_cache := some body, fetchCount := st.fetchCount + 1 })

/-- Embeds `ClerkAuthService.get_jwks`: `if self._jwks_cache: return it`
(Python truthiness, so a cached empty dict does not count), otherwise fetch. -/
def get_jwks (env : FetchOutcome) (st : SvcState) :
    Except HTTPError JwksDoc × SvcState :=
  match st.jwks_cache with
  | some d => if d.truthy then (.ok d, st) else get_jwks_fetch env st
  | none => get_jwks_fetch env st

/-- Index of a character in the standard base64 alphabet (RFC 4648 §4),
`none` for every other character. -/
def b64Index (c : Char) : Option Nat :=
  if 'A' ≤ c ∧ c ≤ 'Z' then some (c.toNat - 'A'.toNat)
  else if 'a' ≤ c ∧ c ≤ 'z' then some (c.toNat - 'a'.toNat + 26)
  else if '0' ≤ c ∧ c ≤ '9' then some (c.toNat - '0'.toNat + 52)
  else if c = '+' then some 62
  else if c = '/' then some 63
  else none

/-- One pass of CPython's `binascii.a2b_base64` in non-strict mode (what
`base64.b64decode` runs with the default `validate=False`), transcribed
from its decoding loop: `quadPos` is the position inside the current
four-character group, `left` the pending bits of that group, `pads` the run
of padding characters seen since the last data character. A `'='` at group
position two or three whose pad run completes the group (position plus run
reaching four) ends the decode, returning the bytes emitted so far; a
`'='` at position zero or one is ignored, and at position two or three
short of completion it only extends the run. A character outside the
base64 alphabet is skipped, and a data character resets the pad run to
zero and emits through the quad state machine. Input exhausted at group
position one is the impossible-length error, and at position two or three
the "Incorrect padding" error; both raise `binascii.Error`, here `none`. -/
def a2bBase64Aux : List Char → Nat → Nat → Nat → List Nat → Option (List Nat)
  | [], quadPos, _left, _pads, acc =>
      if quadPos = 0 then some acc.reverse else none
  | c :: cs, quadPos, left, pads, acc =>
      if c = '=' then
        if 2 ≤ quadPos ∧ 4 ≤ quadPos + pads + 1 then some acc.reverse
        else if 2 ≤ quadPos then a2bBase64Aux cs quadPos left (pads + 1) acc
        else a2bBase64Aux cs quadPos left pads acc
      else
        match b64Index c with
        | none => a2bBase64Aux cs quadPos left pads acc
        | some v =>
            if quadPos = 0 then a2bBase64Aux cs 1 v 0 acc
            else if quadPos = 1 then
              a2bBase64Aux cs 2 (v % 16) 0 ((left * 4 + v / 16) :: acc)
            else if quadPos = 2 then
              a2bBase64Aux cs 3 (v % 4) 0 ((left * 16 + v / 4) :: acc)
            else a2bBase64Aux cs 0 0 0 ((left * 64 + v) :: acc)

/-- Models `base64.b64decode(data)` on a `str` argument with the default
`validate=False`: the string must be pure ASCII (`_bytes_from_decode_data`
encodes it with the ascii codec, raising `ValueError` otherwise), then
`binascii.a2b_base64` decodes the bytes in non-strict mode. Either error
is `none`. -/
def b64decode (cs : List Char) : Option (List Nat) :=
  if cs.all (fun c => c.toNat ≤ 127) then a2bBase64Aux cs 0 0 0 [] else none

/-- The character translation of `_base64url_decode`:
`data.replace('-', '+').replace('_', '/')`. -/
def b64Trans (c : Char) : Char :=
  if c == '-' then '+' else if c == '_' then '/' else c

/-- Embeds `ClerkAuthService._base64url_decode`: pad with `'='` to a
multiple of four characters, translate the URL-safe characters, then
standard base64 decoding. -/
def base64url_decode (s : String) : Option (List Nat) :=
  let cs := s.data
  let padded :=
    if cs.length % 4 != 0 then cs ++ List.replicate (4 - cs.length % 4) '='
    else cs
  b64decode (padded.map b64Trans)

/-- Models `int.from_bytes(bs, byteorder="big")`; the empty byte string
yields 0. -/
def intFromBytesBE (bs : List Nat) : Nat :=
  bs.foldl (fun acc b => acc * 256 + b) 0

/-- Models `rsa.RSAPublicNumbers(e, n).public_key()` followed by PEM
serialization: the `cryptography` package's component check requires
`n ≥ 3`, `e ≥ 3`, `e` odd and `e < n`, raising `ValueError` (caught by the
conversion's `except`) otherwise. -/
def rsaPublicKey (e n : Nat) : Option PEM :=
  if 3 ≤ n ∧ 3 ≤ e ∧ e % 2 = 1 ∧ e < n then some ⟨e, n⟩ else none

/-- The body of the `try` inside `get_public_key` that converts the matching
JWK to PEM; every failure (missing `n`/`e` entry, base64 error, invalid RSA
components) is caught by its `except Exception` and becomes the 500
`keyConversionError`. -/
def jwkToPem (key : Jwk) : Except HTTPError PEM :=
  match key.n, key.e with
  | some nStr, some eStr =>
      match base64url_decode nStr, base64url_decode eStr with
      | some nBytes, some eBytes =>
          match rsaPublicKey (intFromBytesBE eBytes) (intFromBytesBE nBytes) with
          | some pem => .ok pem
          | none => .error keyConversionError
      | _, _ => .error keyConversionError
  | _, _ => .error keyConversionError

/-- Embeds `ClerkAuthService.get_public_key`: serve a materialized key from
`_public_keys_cache`; otherwise get the JWKS (propagating its 503), scan
`jwks.get("keys", [])` for the first entry whose `kid` matches, convert it
(caching the PEM under the kid), and raise the 401 `keyNotFoundError` when
no entry matches. -/
def get_public_key (env : FetchOutcome) (kid : String) (st : SvcState) :
    Except HTTPError PEM × SvcState :=
  match List.lookup kid st.public_keys_cache with
  | some pem => (.ok pem, st)
  | none =>
      match get_jwks env st with
      | (.error err, st2) => (.error err, st2)
      | (.ok jwks, st2) =>
          match (jwks.keys.getD []).find? (fun k => k.kid == some kid) with
          | none => (.error keyNotFoundError, st2)
          | some key =>
              match jwkToPem key with
              | .error err => (.error err, st2)
              | .ok pem =>
                  (.ok pem,
                    { st2 with
                        public_keys_cache := (kid, pem) :: st2.public_keys_cache })

instance (ε α : Type) [DecidableEq ε] [DecidableEq α] : DecidableEq (Except ε α) :=
  fun x y =>
    match x, y with
    | .error a, .error b =>
        if h : a = b then .isTrue (by rw [h]) else .isFalse (fun hh => h (Except.error.inj hh))
    | .ok a, .ok b =>
        if h : a = b then .isTrue (by rw [h]) else .isFalse (fun hh => h (Except.ok.inj hh))
    | .error _, .ok _ => .isFalse (fun hh => Except.noConfusion hh)
    | .ok _, .error _ => .isFalse (fun hh => Except.noConfusion hh)

/-- The decoded JOSE header of a presented token, as
`jwt.get_unverified_header` returns it: a dict, read with `.get`. -/
structure TokenHeader where
  kid : Option String
  alg : Option String
deriving DecidableEq

/-- The decoded claim set of a token. The source reads the payload as an
untyped dict; the claims the service touches are carried as typed fields
(`.get` reads become `Option`). -/
structure Payload where
  sub : Option String
  email : Option String
  name : Option String
  given_name : Option String
  family_name : Option String
  sid : Option String
  iat : Option Int
  exp : Option Int
  iss : Option String
deriving DecidableEq

/-- A presented token, abstracted to what the verification path observes:
`header` is `none` when the compact parse or header JSON decode fails (PyJWT
raises `DecodeError`, a `jwt.InvalidTokenError`); `payload` is `none` when
the payload segment does not decode; `sigValid key` is whether the RS256
signature over the signing input verifies under `key`. -/
structure Token where
  header : Option TokenHeader
  payload : Option Payload
  sigValid : PEM → Bool

/-- The errors `jwt.decode` raises, every one a `jwt.InvalidTokenError`
subclass; `verify_token` handles them all identically, so only the class
membership matters. -/
inductive PyJwtError
  | decodeError
  | invalidAlgorithm
  | invalidSignature
  | expiredSignature
  | invalidIssuer
deriving DecidableEq

/-- Models `jwt.decode(token, key, algorithms=["RS256"], issuer=issuer,
options={"verify_aud": False})` per PyJWT's contract: the header `alg` must
be a member of the allowed list (here exactly `RS256`), the signature must
verify under `key`, the payload must decode, `exp` (when present) must lie
in the future, and the `iss` claim must equal `issuer` (its absence is also
an `InvalidTokenError`, collapsed into `invalidIssuer` here). The audience
is deliberately not checked. The relative order of the failure modes does
not affect the surfaced response: every one is an `InvalidTokenError`. -/
def jwtDecode (tok : Token) (key : PEM) (issuer : String) (now : Int) :
    Except PyJwtError Payload :=
  match tok.header with
  | none => .error .decodeError
  | some hd =>
      if hd.alg ≠ some "RS256" then .error .invalidAlgorithm
      else if !tok.sigValid key then .error .invalidSignature
      else
        match tok.payload with
        | none => .error .decodeError
        | some p =>
            let expOk := match p.exp with
              | some e => decide (now < e)
              | none => true
            if !expOk then .error .expiredSignature
            else if p.iss ≠ some issuer then .error .invalidIssuer
            else .ok p

/-- An exception escaping the body of `verify_token`'s `try` block. The
`fastapi.HTTPException`s raised by the no-kid check, `get_jwks` and
`get_public_key` are not `jwt.InvalidTokenError`s — the two classes are
unrelated — so the two `except` clauses treat the constructors differently. -/
inductive VerifyExc
  | jwtError (e : PyJwtError)
  | httpError (e : HTTPError)
deriving DecidableEq

/-- The body of `verify_token`'s `try` block: decode the unverified header
(`DecodeError` on a malformed token), reject a falsy kid (`None` or the
empty string) with the 401 `noKeyIdError`, resolve the key (any
`HTTPException` from `get_public_key` propagates), then `jwt.decode`. -/
def verify_token_body (env : FetchOutcome) (issuer : String) (now : Int)
    (tok : Token) (st : SvcState) : Except VerifyExc Payload × SvcState :=
  match tok.header with
  | none => (.error (.jwtError .decodeError), st)
  | some hd =>
      if hd.kid.getD "" = "" then (.error (.httpError noKeyIdError), st)
      else
        match get_public_key env (hd.kid.getD "") st with
        | (.error err, st2) => (.error (.httpError err), st2)
        | (.ok pem, st2) =>
            match jwtDecode tok pem issuer now with
            | .error err => (.error (.jwtError err), st2)
            | .ok payload => (.ok payload, st2)

/-- Embeds `ClerkAuthService.verify_token` with its exception handling:
`except jwt.InvalidTokenError` re-raises as the 401 `invalidTokenResponse`;
the blanket `except Exception` — which catches the `HTTPException`s raised
inside the try block, the 503 `serviceUnavailableError`, the 401
`keyNotFoundError`, the 401 `noKeyIdError` and the 500 `keyConversionError`
included — re-raises every one of them as the 500
`verificationFailedResponse`. -/
def verify_token (env : FetchOutcome) (issuer : String) (now : Int)
    (tok : Token) (st : SvcState) : Except HTTPError Payload × SvcState :=
  match verify_token_body env issuer now tok st with
  | (.ok p, st2) => (.ok p, st2)
  | (.error (.jwtError _), st2) => (.error invalidTokenResponse, st2)
  | (.error (.httpError _), st2) => (.error verificationFailedResponse, st2)

/-- The user-information record `get_user_from_token` builds. -/
structure UserInfo where
  id : Option String
  email : Option String
  full_name : String
  first_name : String
  last_name : String
  is_active : Bool
  clerk_user_id : Option String
  session_id : Option String
  issued_at : Option Int
  expires_at : Option Int
deriving DecidableEq

/-- The dict literal of `get_user_from_token`, field by field:
`payload.get("email")` carries no default (an absent claim stays `None`),
while `name`, `given_name` and `family_name` default to the empty string. -/
def userInfoOfPayload (p : Payload) : UserInfo where
  id := p.sub
  email := p.email
  full_name := p.name.getD ""
  first_name := p.given_name.getD ""
  last_name := p.family_name.getD ""
  is_active := true
  clerk_user_id := p.sub
  session_id := p.sid
  issued_at := p.iat
  expires_at := p.exp

/-- Embeds `ClerkAuthService.get_user_from_token`: verify, then map the
payload to the user-information record. -/
def get_user_from_token (env : FetchOutcome) (issuer : String) (now : Int)
    (tok : Token) (st : SvcState) : Except HTTPError UserInfo × SvcState :=
  match verify_token env issuer now tok st with
  | (.ok p, st2) => (.ok (userInfoOfPayload p), st2)
  | (.error err, st2) => (.error err, st2)

/-- Python whitespace for `str.split()` with no argument (the ASCII cases;
the header values at issue are ASCII). -/
def pyIsSpace (c : Char) : Bool :=
  c == ' ' || c == '\t' || c == '\n' || c == '\r' || c == '\x0b' || c == '\x0c'

/-- Worker for `pySplit`: runs of whitespace separate the pieces, and no
empty piece is produced. -/
def pySplitAux : List Char → List Char → List String
  | [], acc => if acc.isEmpty then [] else [⟨acc.reverse⟩]
  | c :: cs, acc =>
      if pyIsSpace c then
        if acc.isEmpty then pySplitAux cs [] else ⟨acc.reverse⟩ :: pySplitAux cs []
      else pySplitAux cs (c :: acc)

/-- Models Python `str.split()` with no argument: split on whitespace runs,
dropping empty pieces. -/
def pySplit (s : String) : List String :=
  pySplitAux s.data []

/-- Models Python `str.lower()` on ASCII text. -/
def pyLowerChar (c : Char) : Char :=
  if 'A' ≤ c ∧ c ≤ 'Z' then Char.ofNat (c.toNat + 32) else c

/-- Lowercase a whole string, character by character. -/
def pyLower (s : String) : String :=
  ⟨s.data.map pyLowerChar⟩

/-- Embeds `ClerkAuthService.extract_token_from_header`: a falsy (empty)
header raises `headerMissingError`; otherwise the value must split into
exactly two pieces with the first case-insensitively `bearer`, and the
second piece is the credential; every other shape raises
`malformedHeaderError`. -/
def extract_token_from_header (authorization_header : String) :
    Except HTTPError String :=
  if authorization_header = "" then .error headerMissingError
  else
    match pySplit authorization_header with
    | [p0, p1] =>
        if pyLower p0 = "bearer" then .ok p1 else .error malformedHeaderError
    | _ => .error malformedHeaderError

/-- The acceptance relation exactly as claim C2 words it: the header value
must consist of exactly two whitespace-separated pieces whose SECOND piece
is case-insensitively `bearer`, and the other piece is returned as the
credential. (The source checks the FIRST piece instead; see the C2
theorems.) -/
def c2ClaimAccepts (hdr : String) : Option String :=
  match pySplit hdr with
  | [p0, p1] => if pyLower p1 = "bearer" then some p0 else none
  | _ => none

/-- The acceptance relation the source implements (claim C2 as amended):
exactly two whitespace-separated pieces, the FIRST case-insensitively
`bearer`, the second returned as the credential. -/
def gateAccepts (hdr : String) : Option String :=
  match pySplit hdr with
  | [p0, p1] => if pyLower p0 = "bearer" then some p1 else none
  | _ => none

/-- The base64url alphabet character of a 6-bit value (RFC 4648 §5); values
of 63 and above map to the last character. -/
def b64urlChar (v : Nat) : Char :=
  if v < 26 then Char.ofNat ('A'.toNat + v)
  else if v < 52 then Char.ofNat ('a'.toNat + v - 26)
  else if v < 62 then Char.ofNat ('0'.toNat + v - 52)
  else if v = 62 then '-'
  else '_'

/-- Unpadded base64url encoding of a byte string, the wire format a JWK's
`n` and `e` fields carry. -/
def b64urlEncode : List Nat → List Char
  | b1 :: b2 :: b3 :: rest =>
      b64urlChar (b1 / 4) :: b64urlChar ((b1 % 4) * 16 + b2 / 16) ::
        b64urlChar ((b2 % 16) * 4 + b3 / 64) :: b64urlChar (b3 % 64) ::
        b64urlEncode rest
  | [b1, b2] =>
      [b64urlChar (b1 / 4), b64urlChar ((b1 % 4) * 16 + b2 / 16),
        b64urlChar ((b2 % 16) * 4)]
  | [b1] => [b64urlChar (b1 / 4), b64urlChar ((b1 % 4) * 16)]
  | [] => []

/-- A claim set that passes every check of `jwtDecode` for issuer
`https://idp.example` at time 0, with no `email` and no `name` claim. -/
def samplePayload : Payload :=
  { sub := some "user-42", email := none, name := none, given_name := none,
    family_name := none, sid := some "sess-1", iat := some 0, exp := some 100,
    iss := some "https://idp.example" }

/-- A well-formed token for `samplePayload`, kid `k1`, algorithm RS256,
whose signature verifies under every key (the signature primitive is
abstract, so this stands for a correctly signed token). -/
def sampleToken : Token :=
  { header := some ⟨some "k1", some "RS256"⟩, payload := some samplePayload,
    sigValid := fun _ => true }

/-- A service state whose materialized-key cache already holds kid `k1`. -/
def sampleKeyState : SvcState :=
  ⟨none, [("k1", ⟨65537, 65539⟩)], 0⟩

/-- `sampleToken` with the kid dropped from its header. -/
def noKidToken : Token :=
  { sampleToken with header := some ⟨none, some "RS256"⟩ }

/-- `sampleToken` with header algorithm HS256 instead of RS256. -/
def hs256Token : Token :=
  { sampleToken with header := some ⟨some "k1", some "HS256"⟩ }

/-- `sampleToken` already expired at any positive verification time. -/
def expiredToken : Token :=
  { sampleToken with payload := some { samplePayload with exp := some 0 } }

/-- The parsed body `{}`: a 2xx JWKS response whose JSON object is empty.
It is a successful fetch, yet falsy as a Python dict. -/
def emptyJwksDoc : JwksDoc :=
  ⟨none, false⟩

/-- The parsed body `{"keys": []}`: truthy, but holding no key. -/
def noKeysDoc : JwksDoc :=
  ⟨some [], false⟩

/-- C1: the error kinds do not all surface as their specified HTTP
categories. The client-presented-token errors that `jwt.decode` raises do
surface as 401 (shown here for an expired token), and no error is downgraded
to success; but `verify_token`'s blanket `except Exception` catches the
`HTTPException`s raised during key resolution, so `ServiceUnavailable`
(503 inside `get_jwks`) and the key-not-found 401 both surface as the 500
`verificationFailedResponse` instead of their specified categories. -/
theorem C1_error_mapping_divergence :
    (get_jwks .failure SvcState.init).1 = .error serviceUnavailableError ∧
    serviceUnavailableError.status = 503 ∧
    (verify_token .failure "https://idp.example" 0 sampleToken SvcState.init).1 =
      .error verificationFailedResponse ∧
    verificationFailedResponse.status = 500 ∧
    (get_public_key (.success noKeysDoc) "k1" SvcState.init).1 =
      .error keyNotFoundError ∧
    keyNotFoundError.status = 401 ∧
    (verify_token (.success noKeysDoc) "https://idp.example" 0 sampleToken
        SvcState.init).1 = .error verificationFailedResponse ∧
    (verify_token .failure "https://idp.example" 5 expiredToken sampleKeyState).1 =
      .error invalidTokenResponse ∧
    invalidTokenResponse.status = 401 :=
  ⟨rfl, rfl, rfl, rfl, rfl, rfl, rfl, rfl, rfl⟩

/-- C5: a token whose decoded header has a falsy kid (absent or empty) fails
without any network access — the state, fetch count included, is returned
unchanged — but the failure surfaces as the 500 `verificationFailedResponse`:
the 401 `noKeyIdError` raised inside the try block is an `HTTPException`,
which the blanket `except Exception` re-raises as 500, not as the
unauthorized response the spec assigns to `InvalidHeader`. -/
theorem C5_no_kid_no_fetch (env : FetchOutcome) (issuer : String) (now : Int)
    (tok : Token) (st : SvcState) (hd : TokenHeader)
    (hh : tok.header = some hd) (hk : hd.kid.getD "" = "") :
    verify_token_body env issuer now tok st = (.error (.httpError noKeyIdError), st) ∧
    verify_token env issuer now tok st = (.error verificationFailedResponse, st) ∧
    (verify_token env issuer now tok st).2.fetchCount = st.fetchCount := by
  have hb : verify_token_body env issuer now tok st =
      (.error (.httpError noKeyIdError), st) := by
    unfold verify_token_body
    rw [hh]
    simp [hk]
  have hv : verify_token env issuer now tok st =
      (.error verificationFailedResponse, st) := by
    unfold verify_token
    rw [hb]
  exact ⟨hb, hv, by rw [hv]⟩

/-- Closed instance for C5: the no-kid token against a fresh service. -/
theorem C5_no_kid_no_fetch_witness :
    verify_token .failure "https://idp.example" 0 noKidToken SvcState.init =
      (.error verificationFailedResponse, SvcState.init) :=
  (C5_no_kid_no_fetch .failure "https://idp.example" 0 noKidToken SvcState.init
    ⟨none, some "RS256"⟩ rfl rfl).2.1

/-- C7: when the JWKS fetch fails and the kid is not already materialized,
`get_public_key` raises the 503 `serviceUnavailableError` and both caches
are left unchanged (only the fetch counter moves), so a later request
re-attempts the fetch; no crash occurs — the failure is a structured
response. But the full verification attempt surfaces it as the 500
`verificationFailedResponse`, not as a retryable 503: the blanket
`except Exception` of `verify_token` swallows the `HTTPException`. -/
theorem C7_fetch_failure (issuer : String) (now : Int) (tok : Token)
    (st : SvcState) (hd : TokenHeader) (kid : String)
    (hh : tok.header = some hd) (hk : hd.kid = some kid) (hne : kid ≠ "")
    (hpk : List.lookup kid st.public_keys_cache = none)
    (hjc : cacheTruthy st.jwks_cache = false) :
    get_public_key .failure kid st =
      (.error serviceUnavailableError, { st with fetchCount := st.fetchCount + 1 }) ∧
    verify_token .failure issuer now tok st =
      (.error verificationFailedResponse, { st with fetchCount := st.fetchCount + 1 }) ∧
    (verify_token .failure issuer now tok st).2.jwks_cache = st.jwks_cache ∧
    (verify_token .failure issuer now tok st).2.public_keys_cache =
      st.public_keys_cache := by
  have hj : get_jwks .failure st =
      (.error serviceUnavailableError, { st with fetchCount := st.fetchCount + 1 }) := by
    cases hc : st.jwks_cache with
    | none => simp [get_jwks, hc, get_jwks_fetch]
    | some d =>
        have ht : d.truthy = false := by
          rw [hc] at hjc
          exact hjc
        simp [get_jwks, hc, ht, get_jwks_fetch]
  have hg : get_public_key .failure kid st =
      (.error serviceUnavailableError, { st with fetchCount := st.fetchCount + 1 }) := by
    simp [get_public_key, hpk, hj]
  have hv : verify_token .failure issuer now tok st =
      (.error verificationFailedResponse, { st with fetchCount := st.fetchCount + 1 }) := by
    have hb : verify_token_body .failure issuer now tok st =
        (.error (.httpError serviceUnavailableError),
          { st with fetchCount := st.fetchCount + 1 }) := by
      simp [verify_token_body, hh, hk, hne, hg]
    simp [verify_token, hb]
  exact ⟨hg, hv, by rw [hv], by rw [hv]⟩

/-- Closed instance for C7: a fresh service, the JWKS endpoint failing. -/
theorem C7_fetch_failure_witness :
    verify_token .failure "https://idp.example" 0 sampleToken SvcState.init =
      (.error verificationFailedResponse, ⟨none, [], 1⟩) :=
  (C7_fetch_failure "https://idp.example" 0 sampleToken SvcState.init
    ⟨some "k1", some "RS256"⟩ "k1" rfl rfl (by decide) rfl rfl).2.1

/-- C6 counterexample: the JWKS endpoint responds 2xx with the valid JSON
body `{}`. The first `get_public_key` fetches successfully (one fetch, and
the body is stored in `_jwks_cache`), yet a second call fetches AGAIN —
`if self._jwks_cache:` is Python truthiness and the cached empty dict is
falsy — so a successful fetch does not preclude a later re-fetch as the
claim states. -/
theorem C6_counterexample :
    (get_public_key (.success emptyJwksDoc) "k1" SvcState.init).2.fetchCount = 1 ∧
    (get_public_key (.success emptyJwksDoc) "k1" SvcState.init).2.jwks_cache =
      some emptyJwksDoc ∧
    (get_public_key (.success emptyJwksDoc) "k1"
        (get_public_key (.success emptyJwksDoc) "k1" SvcState.init).2).2.fetchCount =
      2 :=
  ⟨rfl, rfl, rfl⟩

/-- C6 as amended: once the cached key-set body is a TRUTHY (non-empty) JSON
object, no later `get_public_key` call triggers a network fetch, and a kid
absent from both caches yields the 401 `keyNotFoundError` with the state
unchanged — no re-fetch on a kid miss. -/
theorem C6_no_refetch_after_truthy (env : FetchOutcome) (kid : String)
    (st : SvcState) (d : JwksDoc) (hc : st.jwks_cache = some d)
    (ht : d.truthy = true) :
    (get_public_key env kid st).2.fetchCount = st.fetchCount ∧
    (List.lookup kid st.public_keys_cache = none →
      (d.keys.getD []).find? (fun k => k.kid == some kid) = none →
      get_public_key env kid st = (.error keyNotFoundError, st)) := by
  have hj : get_jwks env st = (.ok d, st) := by
    simp [get_jwks, hc, ht]
  constructor
  · cases hl : List.lookup kid st.public_keys_cache with
    | some pem => simp [get_public_key, hl]
    | none =>
        cases hf : (d.keys.getD []).find? (fun k => k.kid == some kid) with
        | none => simp [get_public_key, hl, hj, hf]
        | some key =>
            cases hp : jwkToPem key with
            | error err => simp [get_public_key, hl, hj, hf, hp]
            | ok pem => simp [get_public_key, hl, hj, hf, hp]
  · intro hl hf
    simp [get_public_key, hl, hj, hf]

/-- Closed instance for C6's amended claim: a state already caching the
truthy body `{"keys": []}` serves a kid miss without fetching. -/
theorem C6_no_refetch_after_truthy_witness :
    get_public_key .failure "k1" ⟨some noKeysDoc, [], 7⟩ =
      (.error keyNotFoundError, ⟨some noKeysDoc, [], 7⟩) :=
  (C6_no_refetch_after_truthy .failure "k1" ⟨some noKeysDoc, [], 7⟩ noKeysDoc
    rfl rfl).2 rfl rfl

/-- C2 counterexample: the claim requires the SECOND piece to be `bearer`,
the source checks the FIRST. On `Bearer abc123` the claim as stated rejects
(second piece is `abc123`) while the code accepts and returns `abc123`; on
`abc123 Bearer` the claim as stated accepts while the code rejects with the
401 `malformedHeaderError`. -/
theorem C2_counterexample :
    c2ClaimAccepts "Bearer abc123" = none ∧
    extract_token_from_header "Bearer abc123" = .ok "abc123" ∧
    c2ClaimAccepts "abc123 Bearer" = some "abc123" ∧
    extract_token_from_header "abc123 Bearer" = .error malformedHeaderError := by
  refine ⟨by decide, by decide, by decide, by decide⟩

/-- C2 as amended: the parser accepts exactly the header values made of two
whitespace-separated pieces whose FIRST piece is case-insensitively
`bearer`, returning the second piece as the credential; every other value
yields a 401 — the missing-header detail for the empty value, the
malformed-header detail otherwise. -/
theorem C2_header_acceptance (hdr : String) :
    (∀ t, extract_token_from_header hdr = .ok t ↔ gateAccepts hdr = some t) ∧
    (gateAccepts hdr = none →
      extract_token_from_header hdr =
        .error (if hdr = "" then headerMissingError else malformedHeaderError)) ∧
    headerMissingError.status = 401 ∧ malformedHeaderError.status = 401 := by
  refine ⟨?_, ?_, rfl, rfl⟩ <;> by_cases h0 : hdr = ""
  · subst h0
    intro t
    constructor
    · intro h
      rw [show extract_token_from_header "" = .error headerMissingError from rfl] at h
      exact Except.noConfusion h
    · intro h
      rw [show gateAccepts "" = none from rfl] at h
      exact Option.noConfusion h
  · intro t
    rcases hl : pySplit hdr with _ | ⟨p0, _ | ⟨p1, _ | ⟨p2, rest⟩⟩⟩
    · simp [extract_token_from_header, gateAccepts, h0, hl]
    · simp [extract_token_from_header, gateAccepts, h0, hl]
    · by_cases hb : pyLower p0 = "bearer" <;>
        simp [extract_token_from_header, gateAccepts, h0, hl, hb]
    · simp [extract_token_from_header, gateAccepts, h0, hl]
  · subst h0
    intro _
    rfl
  · intro hnone
    rw [if_neg h0]
    rcases hl : pySplit hdr with _ | ⟨p0, _ | ⟨p1, _ | ⟨p2, rest⟩⟩⟩
    · simp [extract_token_from_header, h0, hl]
    · simp [extract_token_from_header, h0, hl]
    · rw [gateAccepts, hl] at hnone
      by_cases hb : pyLower p0 = "bearer"
      · simp [hb] at hnone
      · simp [extract_token_from_header, h0, hl, hb]
    · simp [extract_token_from_header, h0, hl]

/-- C3 counterexample: a token that verifies successfully but carries no
`email` claim. `payload.get("email")` has no default, so the extracted
record holds `None` (here `none`) — not the empty string the claim
specifies as the default. -/
theorem C3_counterexample :
    (get_user_from_token .failure "https://idp.example" 0 sampleToken
        sampleKeyState).1 = .ok (userInfoOfPayload samplePayload) ∧
    samplePayload.email = none ∧
    (userInfoOfPayload samplePayload).email = none ∧
    (userInfoOfPayload samplePayload).email ≠ some "" := by
  refine ⟨rfl, rfl, rfl, by decide⟩

/-- C3 as amended: for every verified payload, the extracted record maps
`sub` to `id`, `email` to `email` WITHOUT a default (an absent claim stays
`none`), `name` to `full_name` with empty-string fallback, `sid` to
`session_id`, `iat` to `issued_at`, `exp` to `expires_at`, and `is_active`
is always true. -/
theorem C3_principal_mapping (env : FetchOutcome) (issuer : String) (now : Int)
    (tok : Token) (st st2 : SvcState) (p : Payload)
    (hv : verify_token env issuer now tok st = (.ok p, st2)) :
    get_user_from_token env issuer now tok st = (.ok (userInfoOfPayload p), st2) ∧
    (userInfoOfPayload p).id = p.sub ∧
    (userInfoOfPayload p).email = p.email ∧
    (userInfoOfPayload p).full_name = p.name.getD "" ∧
    (userInfoOfPayload p).session_id = p.sid ∧
    (userInfoOfPayload p).issued_at = p.iat ∧
    (userInfoOfPayload p).expires_at = p.exp ∧
    (userInfoOfPayload p).is_active = true := by
  refine ⟨?_, rfl, rfl, rfl, rfl, rfl, rfl, rfl⟩
  simp [get_user_from_token, hv]

/-- Closed instance for C3's amended claim. -/
theorem C3_principal_mapping_witness :
    get_user_from_token .failure "https://idp.example" 0 sampleToken
      sampleKeyState = (.ok (userInfoOfPayload samplePayload), sampleKeyState) :=
  (C3_principal_mapping .failure "https://idp.example" 0 sampleToken
    sampleKeyState sampleKeyState samplePayload rfl).1

/-- C4: a token whose header `alg` is anything but `RS256` is never
verified successfully — whatever the environment, state, issuer or time —
and whenever its key resolves, the rejection is the 401 unauthorized
response of the `jwt.InvalidTokenError` handler (PyJWT raises
`InvalidAlgorithmError` because the algorithm is outside the allowed list
`["RS256"]`). -/
theorem C4_rs256_only (env : FetchOutcome) (issuer : String) (now : Int)
    (tok : Token) (st : SvcState) (hd : TokenHeader)
    (hh : tok.header = some hd) (halg : hd.alg ≠ some "RS256") :
    (∀ p st2, verify_token env issuer now tok st ≠ (.ok p, st2)) ∧
    (∀ pem st2, hd.kid.getD "" ≠ "" →
      get_public_key env (hd.kid.getD "") st = (.ok pem, st2) →
      verify_token env issuer now tok st = (.error invalidTokenResponse, st2)) := by
  have hdec : ∀ pem, jwtDecode tok pem issuer now = .error .invalidAlgorithm := by
    intro pem
    simp [jwtDecode, hh, halg]
  constructor
  · intro p st2 hcon
    by_cases hk : hd.kid.getD "" = ""
    · have hb : verify_token_body env issuer now tok st =
          (.error (.httpError noKeyIdError), st) := by
        simp [verify_token_body, hh, hk]
      rw [verify_token, hb] at hcon
      simp at hcon
    · rcases hg : get_public_key env (hd.kid.getD "") st with ⟨res, st3⟩
      cases res with
      | error err =>
          have hb : verify_token_body env issuer now tok st =
              (.error (.httpError err), st3) := by
            simp [verify_token_body, hh, hk, hg]
          rw [verify_token, hb] at hcon
          simp at hcon
      | ok pem =>
          have hb : verify_token_body env issuer now tok st =
              (.error (.jwtError .invalidAlgorithm), st3) := by
            simp [verify_token_body, hh, hk, hg, hdec]
          rw [verify_token, hb] at hcon
          simp at hcon
  · intro pem st2 hk hg
    have hb : verify_token_body env issuer now tok st =
        (.error (.jwtError .invalidAlgorithm), st2) := by
      simp [verify_token_body, hh, hk, hg, hdec]
    rw [verify_token, hb]

/-- Closed instance for C4: an HS256 token whose kid is in the key cache is
rejected with the 401 unauthorized response. -/
theorem C4_rs256_only_witness :
    verify_token .failure "https://idp.example" 0 hs256Token sampleKeyState =
      (.error invalidTokenResponse, sampleKeyState) :=
  (C4_rs256_only .failure "https://idp.example" 0 hs256Token sampleKeyState
    ⟨some "k1", some "HS256"⟩ rfl (by decide)).2 ⟨65537, 65539⟩ sampleKeyState
    (by decide) rfl

/-- Helper: `get_jwks` never touches the materialized-key cache. -/
theorem get_jwks_pk_unchanged (env : FetchOutcome) (st : SvcState) :
    (get_jwks env st).2.public_keys_cache = st.public_keys_cache := by
  cases hc : st.jwks_cache with
  | none => cases env <;> simp [get_jwks, hc, get_jwks_fetch]
  | some d =>
      by_cases ht : d.truthy <;> cases env <;>
        simp [get_jwks, hc, ht, get_jwks_fetch]

/-- Helper: `get_public_key` never removes or overwrites an entry of the
materialized-key cache: an existing binding survives any call. -/
theorem get_public_key_cache_mono (env : FetchOutcome) (kid : String)
    (st : SvcState) (k : String) (v : PEM)
    (h : List.lookup k st.public_keys_cache = some v) :
    List.lookup k (get_public_key env kid st).2.public_keys_cache = some v := by
  cases hl : List.lookup kid st.public_keys_cache with
  | some pem => simp [get_public_key, hl, h]
  | none =>
      rcases hj : get_jwks env st with ⟨res, st2⟩
      have hpk2 : st2.public_keys_cache = st.public_keys_cache := by
        have hu := get_jwks_pk_unchanged env st
        rw [hj] at hu
        exact hu
      cases res with
      | error err => simp [get_public_key, hl, hj, hpk2, h]
      | ok jwks =>
          cases hf : (jwks.keys.getD []).find? (fun kk => kk.kid == some kid) with
          | none => simp [get_public_key, hl, hj, hf, hpk2, h]
          | some key =>
              cases hp : jwkToPem key with
              | error err => simp [get_public_key, hl, hj, hf, hp, hpk2, h]
              | ok pem =>
                  have hkne : (k == kid) = false := by
                    by_contra hcon
                    have hkk : k = kid := by
                      have := eq_of_beq (Bool.of_not_eq_false hcon)
                      exact this
                    rw [hkk, hl] at h
                    exact Option.noConfusion h
                  simp [get_public_key, hl, hj, hf, hp, List.lookup, hkne,
                    hpk2, h]

/-- Helper: `verify_token` never removes or overwrites an entry of the
materialized-key cache either (its only state change is through
`get_public_key`). -/
theorem verify_token_cache_mono (env : FetchOutcome) (issuer : String)
    (now : Int) (tok : Token) (st : SvcState) (k : String) (v : PEM)
    (h : List.lookup k st.public_keys_cache = some v) :
    List.lookup k (verify_token env issuer now tok st).2.public_keys_cache =
      some v := by
  cases hh : tok.header with
  | none => simp [verify_token, verify_token_body, hh, h]
  | some hd =>
      by_cases hk : hd.kid.getD "" = ""
      · simp [verify_token, verify_token_body, hh, hk, h]
      · rcases hg : get_public_key env (hd.kid.getD "") st with ⟨res, st2⟩
        have hmono := get_public_key_cache_mono env (hd.kid.getD "") st k v h
        rw [hg] at hmono
        cases res with
        | error err => simp [verify_token, verify_token_body, hh, hk, hg, hmono]
        | ok pem =>
            cases hd2 : jwtDecode tok pem issuer now with
            | error e =>
                simp [verify_token, verify_token_body, hh, hk, hg, hd2, hmono]
            | ok p =>
                simp [verify_token, verify_token_body, hh, hk, hg, hd2, hmono]

/-- C10: the materialized-key cache is idempotent per kid. A kid already
cached is served back identically with the state untouched (no fetch, no
re-derivation); any successful `get_public_key` leaves its result bound to
its kid; and no later `get_public_key` or `verify_token` call ever removes
or overwrites an existing binding. -/
theorem C10_key_cache_idempotent (env env2 : FetchOutcome) (kid kid2 : String)
    (issuer : String) (now : Int) (tok : Token) (st : SvcState) (pem : PEM)
    (hc : List.lookup kid st.public_keys_cache = some pem) :
    get_public_key env kid st = (.ok pem, st) ∧
    (∀ v st2, get_public_key env2 kid2 st = (.ok v, st2) →
      List.lookup kid2 st2.public_keys_cache = some v) ∧
    (∀ k v, List.lookup k st.public_keys_cache = some v →
      List.lookup k (get_public_key env2 kid2 st).2.public_keys_cache = some v) ∧
    (∀ k v, List.lookup k st.public_keys_cache = some v →
      List.lookup k (verify_token env2 issuer now tok st).2.public_keys_cache =
        some v) := by
  refine ⟨by simp [get_public_key, hc], ?_, ?_, ?_⟩
  · intro v st2 hok
    cases hl : List.lookup kid2 st.public_keys_cache with
    | some pem2 =>
        rw [show get_public_key env2 kid2 st = (.ok pem2, st) from by
          simp [get_public_key, hl]] at hok
        have hv : pem2 = v := by
          have := congrArg (fun q => q.1) hok
          simpa using this
        have hst : st = st2 := by
          have := congrArg (fun q => q.2) hok
          simpa using this
        rw [← hst, hl, hv]
    | none =>
        rcases hj : get_jwks env2 st with ⟨res, st3⟩
        cases res with
        | error err =>
            rw [show get_public_key env2 kid2 st = (.error err, st3) from by
              simp [get_public_key, hl, hj]] at hok
            simp at hok
        | ok jwks =>
            cases hf : (jwks.keys.getD []).find? (fun kk => kk.kid == some kid2) with
            | none =>
                rw [show get_public_key env2 kid2 st = (.error keyNotFoundError, st3)
                  from by simp [get_public_key, hl, hj, hf]] at hok
                simp at hok
            | some key =>
                cases hp : jwkToPem key with
                | error err =>
                    rw [show get_public_key env2 kid2 st = (.error err, st3) from by
                      simp [get_public_key, hl, hj, hf, hp]] at hok
                    simp at hok
                | ok pem2 =>
                    rw [show get_public_key env2 kid2 st =
                        (.ok pem2, { st3 with
                          public_keys_cache := (kid2, pem2) :: st3.public_keys_cache })
                      from by simp [get_public_key, hl, hj, hf, hp]] at hok
                    have hv : pem2 = v := by
                      have := congrArg (fun q => q.1) hok
                      simpa using this
                    have hst : ({ st3 with
                        public_keys_cache := (kid2, pem2) :: st3.public_keys_cache }
                          : SvcState) = st2 := by
                      have := congrArg (fun q => q.2) hok
                      simpa using this
                    rw [← hst]
                    simp [List.lookup, hv]
  · intro k v hkv
    exact get_public_key_cache_mono env2 kid2 st k v hkv
  · intro k v hkv
    exact verify_token_cache_mono env2 issuer now tok st k v hkv

/-- Closed instance for C10: a cached kid is served back unchanged. -/
theorem C10_key_cache_idempotent_witness :
    get_public_key .failure "k1" sampleKeyState =
      (.ok ⟨65537, 65539⟩, sampleKeyState) :=
  (C10_key_cache_idempotent .failure .failure "k1" "k1" "https://idp.example" 0
    sampleToken sampleKeyState ⟨65537, 65539⟩ rfl).1

/-- Helper: each base64url alphabet character, run through the URL-safe
translation, indexes back to its own 6-bit value. -/
theorem b64Index_trans_urlChar :
    ∀ v : Nat, v < 64 → b64Index (b64Trans (b64urlChar v)) = some v := by decide

/-- Helper: translated alphabet characters are never the padding character
and are ASCII. -/
theorem b64urlChar_props : ∀ v : Nat, v < 64 →
    b64Trans (b64urlChar v) ≠ '=' ∧ (b64Trans (b64urlChar v)).toNat ≤ 127 := by decide

/-- Helper: every character the encoder emits is an alphabet character. -/
theorem b64urlEncode_chars : ∀ (bs : List Nat), (∀ b ∈ bs, b < 256) →
    ∀ c ∈ b64urlEncode bs, ∃ v, v < 64 ∧ c = b64urlChar v
  | [], _, c, hc => by simp [b64urlEncode] at hc
  | [b1], h, c, hc => by
      have hb1 : b1 < 256 := h b1 (by simp)
      simp [b64urlEncode] at hc
      rcases hc with rfl | rfl
      · exact ⟨b1 / 4, by omega, rfl⟩
      · exact ⟨(b1 % 4) * 16, by omega, rfl⟩
  | [b1, b2], h, c, hc => by
      have hb1 : b1 < 256 := h b1 (by simp)
      have hb2 : b2 < 256 := h b2 (by simp)
      simp [b64urlEncode] at hc
      rcases hc with rfl | rfl | rfl
      · exact ⟨b1 / 4, by omega, rfl⟩
      · exact ⟨(b1 % 4) * 16 + b2 / 16, by omega, rfl⟩
      · exact ⟨(b2 % 16) * 4, by omega, rfl⟩
  | b1 :: b2 :: b3 :: rest, h, c, hc => by
      have hb1 : b1 < 256 := h b1 (by simp)
      have hb2 : b2 < 256 := h b2 (by simp)
      have hb3 : b3 < 256 := h b3 (by simp)
      simp only [b64urlEncode, List.mem_cons] at hc
      rcases hc with rfl | rfl | rfl | rfl | hc
      · exact ⟨b1 / 4, by omega, rfl⟩
      · exact ⟨(b1 % 4) * 16 + b2 / 16, by omega, rfl⟩
      · exact ⟨(b2 % 16) * 4 + b3 / 64, by omega, rfl⟩
      · exact ⟨b3 % 64, by omega, rfl⟩
      · exact b64urlEncode_chars rest (fun b hb => h b (by simp [hb])) c hc

/-- Helper: running the base64 state machine over an encoded byte string
followed by its padding emits exactly those bytes onto the accumulator.
The pad count `(4 - length % 4) % 4` is zero for a complete final quad and
otherwise what `_base64url_decode` appends. -/
theorem a2b_encode_aux : ∀ (bs : List Nat), (∀ b ∈ bs, b < 256) → ∀ (acc : List Nat),
    a2bBase64Aux ((b64urlEncode bs).map b64Trans ++
        List.replicate ((4 - (b64urlEncode bs).length % 4) % 4) '=') 0 0 0 acc =
      some (acc.reverse ++ bs)
  | [], _, acc => by simp [b64urlEncode, a2bBase64Aux]
  | [b1], h, acc => by
      have hb1 : b1 < 256 := h b1 (by simp)
      have h1 := b64Index_trans_urlChar (b1 / 4) (by omega)
      have h2 := b64Index_trans_urlChar ((b1 % 4) * 16) (by omega)
      have hne1 := (b64urlChar_props (b1 / 4) (by omega)).1
      have hne2 := (b64urlChar_props ((b1 % 4) * 16) (by omega)).1
      simp [b64urlEncode, a2bBase64Aux, hne1, hne2, h1, h2, List.replicate]
      omega
  | [b1, b2], h, acc => by
      have hb1 : b1 < 256 := h b1 (by simp)
      have hb2 : b2 < 256 := h b2 (by simp)
      have h1 := b64Index_trans_urlChar (b1 / 4) (by omega)
      have h2 := b64Index_trans_urlChar ((b1 % 4) * 16 + b2 / 16) (by omega)
      have h3 := b64Index_trans_urlChar ((b2 % 16) * 4) (by omega)
      have hne1 := (b64urlChar_props (b1 / 4) (by omega)).1
      have hne2 := (b64urlChar_props ((b1 % 4) * 16 + b2 / 16) (by omega)).1
      have hne3 := (b64urlChar_props ((b2 % 16) * 4) (by omega)).1
      simp [b64urlEncode, a2bBase64Aux, hne1, hne2, hne3, h1, h2, h3,
        List.replicate]
      constructor <;> omega
  | b1 :: b2 :: b3 :: rest, h, acc => by
      have hb1 : b1 < 256 := h b1 (by simp)
      have hb2 : b2 < 256 := h b2 (by simp)
      have hb3 : b3 < 256 := h b3 (by simp)
      have h1 := b64Index_trans_urlChar (b1 / 4) (by omega)
      have h2 := b64Index_trans_urlChar ((b1 % 4) * 16 + b2 / 16) (by omega)
      have h3 := b64Index_trans_urlChar ((b2 % 16) * 4 + b3 / 64) (by omega)
      have h4 := b64Index_trans_urlChar (b3 % 64) (by omega)
      have hne1 := (b64urlChar_props (b1 / 4) (by omega)).1
      have hne2 := (b64urlChar_props ((b1 % 4) * 16 + b2 / 16) (by omega)).1
      have hne3 := (b64urlChar_props ((b2 % 16) * 4 + b3 / 64) (by omega)).1
      have hne4 := (b64urlChar_props (b3 % 64) (by omega)).1
      have hmod : (b64urlEncode (b1 :: b2 :: b3 :: rest)).length % 4 =
          (b64urlEncode rest).length % 4 := by
        simp only [b64urlEncode, List.length_cons]
        omega
      have ih := a2b_encode_aux rest (fun b hb => h b (by simp [hb]))
      rw [hmod]
      simp only [b64urlEncode, List.map_cons, List.cons_append]
      simp [a2bBase64Aux, hne1, hne2, hne3, hne4, h1, h2, h3, h4, ih]
      omega

/-- Helper round trip: `_base64url_decode` inverts the unpadded base64url
encoding of any byte string — the padding, URL-safe translation, ASCII
check and base64 state machine compose to a correct decoder. -/
theorem base64url_decode_encode (bs : List Nat) (h : ∀ b ∈ bs, b < 256) :
    base64url_decode ⟨b64urlEncode bs⟩ = some bs := by
  have haux := a2b_encode_aux bs h []
  have hascii : (((b64urlEncode bs).map b64Trans ++
      List.replicate ((4 - (b64urlEncode bs).length % 4) % 4) '=').all
        (fun c => c.toNat ≤ 127)) = true := by
    rw [List.all_eq_true]
    intro c hc
    rcases List.mem_append.mp hc with hmem | hmem
    · rcases List.mem_map.mp hmem with ⟨c0, hc0, rfl⟩
      rcases b64urlEncode_chars bs h c0 hc0 with ⟨v, hv, rfl⟩
      simpa using (b64urlChar_props v hv).2
    · rw [List.eq_of_mem_replicate hmem]
      decide
  have hshape : base64url_decode ⟨b64urlEncode bs⟩ =
      b64decode ((if ((b64urlEncode bs).length % 4 != 0) = true then
          b64urlEncode bs ++ List.replicate (4 - (b64urlEncode bs).length % 4) '='
        else b64urlEncode bs).map b64Trans) := rfl
  rw [hshape]
  by_cases hrem : (b64urlEncode bs).length % 4 = 0
  · rw [if_neg (by simp [hrem])]
    rw [hrem] at haux hascii
    simp only [Nat.sub_zero, Nat.mod_self, List.replicate_zero, List.append_nil]
      at haux hascii
    rw [b64decode, if_pos hascii, haux]
    simp
  · rw [if_pos (by simp [hrem])]
    have hpadeq : (4 - (b64urlEncode bs).length % 4) % 4 =
        4 - (b64urlEncode bs).length % 4 := by
      have hlt : (b64urlEncode bs).length % 4 < 4 := Nat.mod_lt _ (by omega)
      omega
    rw [hpadeq] at haux hascii
    rw [List.map_append, List.map_replicate]
    have htr : b64Trans '=' = '=' := rfl
    rw [htr]
    rw [b64decode, if_pos hascii, haux]
    simp

/-- C8: key materialization follows the specified algorithm. For every key
descriptor carrying `n` and `e` strings: when both fields base64url-decode,
the result is exactly the serialized RSA key of the big-endian `(exponent,
modulus)` pair — or `keyConversionError` when the component check rejects
them; when either field fails to decode, the result is
`keyConversionError`; the serialized container determines and is determined
by the `(e, n)` pair; the decode pipeline (pad with `'='` to a multiple of
four, translate `'-'`/`'_'`, standard base64) correctly inverts base64url
encoding on every byte string; and every failure whatsoever surfaces as
`keyConversionError`, never as a usable key. -/
theorem C8_materialize (key : Jwk) (nStr eStr : String)
    (hn : key.n = some nStr) (he : key.e = some eStr) :
    (∀ nb eb, base64url_decode nStr = some nb → base64url_decode eStr = some eb →
      jwkToPem key =
        match rsaPublicKey (intFromBytesBE eb) (intFromBytesBE nb) with
        | some pem => .ok pem
        | none => .error keyConversionError) ∧
    (base64url_decode nStr = none ∨ base64url_decode eStr = none →
      jwkToPem key = .error keyConversionError) ∧
    (∀ e2 n2 pem, rsaPublicKey e2 n2 = some pem → pem.e = e2 ∧ pem.n = n2) ∧
    (∀ bs : List Nat, (∀ b ∈ bs, b < 256) →
      base64url_decode ⟨b64urlEncode bs⟩ = some bs) ∧
    (∀ err, jwkToPem key = .error err → err = keyConversionError) := by
  obtain ⟨kk, kn, ke⟩ := key
  have hn2 : kn = some nStr := hn
  have he2 : ke = some eStr := he
  subst hn2
  subst he2
  refine ⟨?_, ?_, ?_, fun bs hb => base64url_decode_encode bs hb, ?_⟩
  · intro nb eb hnb heb
    cases hr : rsaPublicKey (intFromBytesBE eb) (intFromBytesBE nb) with
    | some pem => simp [jwkToPem, hnb, heb, hr]
    | none => simp [jwkToPem, hnb, heb, hr]
  · intro hcase
    rcases hcase with hnone | hnone
    · simp [jwkToPem, hnone]
    · cases hd : base64url_decode nStr with
      | none => simp [jwkToPem, hd]
      | some nb => simp [jwkToPem, hd, hnone]
  · intro e2 n2 pem hr
    unfold rsaPublicKey at hr
    by_cases hcond : 3 ≤ n2 ∧ 3 ≤ e2 ∧ e2 % 2 = 1 ∧ e2 < n2
    · rw [if_pos hcond] at hr
      have hp := Option.some.inj hr
      rw [← hp]
      exact ⟨rfl, rfl⟩
    · rw [if_neg hcond] at hr
      exact Option.noConfusion hr
  · intro err herr
    cases hd1 : base64url_decode nStr with
    | none =>
        rw [show jwkToPem ⟨kk, some nStr, some eStr⟩ = .error keyConversionError
          from by simp [jwkToPem, hd1]] at herr
        exact (Except.error.inj herr).symm
    | some nb =>
        cases hd2 : base64url_decode eStr with
        | none =>
            rw [show jwkToPem ⟨kk, some nStr, some eStr⟩ = .error keyConversionError
              from by simp [jwkToPem, hd1, hd2]] at herr
            exact (Except.error.inj herr).symm
        | some eb =>
            cases hr : rsaPublicKey (intFromBytesBE eb) (intFromBytesBE nb) with
            | some pem =>
                rw [show jwkToPem ⟨kk, some nStr, some eStr⟩ = .ok pem
                  from by simp [jwkToPem, hd1, hd2, hr]] at herr
                exact Except.noConfusion herr
            | none =>
                rw [show jwkToPem ⟨kk, some nStr, some eStr⟩ = .error keyConversionError
                  from by simp [jwkToPem, hd1, hd2, hr]] at herr
                exact (Except.error.inj herr).symm

/-- Closed instance for C8: the JWK with modulus bytes `[1, 0, 3]` (65539)
and the classic exponent `AQAB` (65537) materializes to exactly that
serialized pair. -/
theorem C8_materialize_witness :
    jwkToPem ⟨some "zap", some "AQAD", some "AQAB"⟩ = .ok ⟨65537, 65539⟩ := by
  have h := (C8_materialize ⟨some "zap", some "AQAD", some "AQAB"⟩ "AQAD" "AQAB"
    rfl rfl).1 [1, 0, 3] [1, 0, 1] (by decide) (by decide)
  rw [h]
  rfl

end ZapAuth
